import Mathlib

/-!
Verification of the conversational-workflow program in `src/app.py` (a
Streamlit chatbot: greet, extract a destination, collect an email, verify an
OTP, and fetch monument information).

The Python program is shallowly embedded: the process-wide mutable dictionary
`otp_store` becomes an explicitly threaded association list, Python functions
that can raise become functions into `Except PyExn`, and the three external
collaborators (the spaCy entity recognizer, the SMTP transport, and the Gemini
text generator) become function parameters.  The LangGraph workflow is a fixed
linear chain `greet → extract_location → request_email → verify_otp →
provide_info` (lines 126-138); `graph.invoke` therefore runs every node once,
in that order, which is embedded as sequential composition.
-/

/-- Python exceptions, as far as this program distinguishes them: the
`NameError` raised by reading an unbound global, the `IndexError` raised by
`list[-1]` on an empty list, and anything raised by an external collaborator. -/
inductive PyExn where
  | nameError
  | indexError
  | other (description : String)
deriving DecidableEq, Repr

/-- One chat message: a `{"role": ..., "content": ...}` dictionary
(`app.py` uses the roles `"user"` and `"bot"`). -/
structure Message where
  role : String
  content : String
deriving DecidableEq, Repr

/-- One spaCy entity: its surface text (`ent.text`) and its label
(`ent.label_`). -/
structure SpacyEnt where
  text : String
  label : String
deriving DecidableEq, Repr

/-- The `ChatState` dataclass (lines 66-71). -/
structure ChatState where
  messages : List Message
  email : Option String
  otp_verified : Bool
  location : Option String
deriving DecidableEq, Repr

/-- The session created at line 145: `ChatState(messages=[])`, with the
dataclass defaults `email=None`, `otp_verified=False`, `location=None`. -/
def initialSession : ChatState :=
  { messages := [], email := none, otp_verified := false, location := none }

/-- The process-wide dictionary `otp_store` (line 27), keys are email strings
and values are OTP code strings.  Assignment conses a fresh binding and lookup
takes the most recent one, which matches dictionary assignment/lookup. -/
abbrev OtpStore : Type := List (String × String)

/-- Dictionary assignment `otp_store[email] = otp` (line 38). -/
def otpStoreInsert (st : OtpStore) (email code : String) : OtpStore :=
  (email, code) :: st

/-- Dictionary lookup `otp_store.get(email)`.  The program calls it with
`state.email`, which can be `None` (line 109); since only genuine string keys
are ever assigned, `dict.get(None)` returns `None`, embedded as the `none`
branch. -/
def otpGet (st : OtpStore) (email : Option String) : Option String :=
  match email with
  | none => none
  | some e => (List.find? (fun p => p.1 == e) st).map (·.2)

/-- `extract_location` (lines 30-33): list the entities whose label is
`"GPE"`, keep their texts, and return the first one, or `None` when the list
is empty (`locations[0] if locations else None`). -/
def extract_location (nlp : String → List SpacyEnt) (user_input : String) :
    Option String :=
  (((nlp user_input).filter (fun e => e.label == "GPE")).map (·.text)).head?

/-- The module-level string globals bound at lines 16-18 of `app.py`:
`GEMINI_API_KEY`, `EMAIL_SENDER` and `EMAIL_PASSWORD` (the secret values are
irrelevant placeholders here).  Note that no global named `EMAIL_ADDRESS` is
ever bound anywhere in the module, although lines 43 and 48 read that name. -/
def moduleGlobals : List (String × String) :=
  [("GEMINI_API_KEY", "gemini-key"),
   ("EMAIL_SENDER", "sender-address"),
   ("EMAIL_PASSWORD", "sender-credential")]

/-- Reading a module global by name: an unbound name raises `NameError`. -/
def lookupGlobal (n : String) : Except PyExn String :=
  match (List.find? (fun p => p.1 == n) moduleGlobals).map (·.2) with
  | some v => Except.ok v
  | none => Except.error PyExn.nameError

/-- `send_otp` (lines 36-52).  `otpVal` is the value returned by
`random.randint(100000, 999999)` at line 37 and `transport` abstracts the
SMTP login-and-send of lines 47-49 (its arguments are the recipient and the
message body; any exception it raises is caught by the `except` at line 51).
The OTP is stored (line 38) before anything else happens.  Line 43,
`msg["From"] = EMAIL_ADDRESS`, reads the unbound global `EMAIL_ADDRESS` and
sits before the `try`, so its `NameError` is embedded as an escaping error.
The store mutation survives an escaping exception because `otp_store` is a
module-level dictionary, hence `send_otp` returns the store alongside the
`Except` outcome. -/
def send_otp (transport : String → String → Except PyExn Unit) (otpVal : Nat)
    (email : String) (st : OtpStore) : OtpStore × Except PyExn Bool :=
  let otp := Nat.repr otpVal
  let st' := otpStoreInsert st email otp
  match lookupGlobal "EMAIL_ADDRESS" with
  | Except.error e => (st', Except.error e)
  | Except.ok _ =>
      match transport email ("Your OTP for verification is: " ++ otp) with
      | Except.ok _ => (st', Except.ok true)
      | Except.error _ => (st', Except.ok false)

/-- `verify_otp` (lines 55-56): `otp_store.get(email) == entered_otp`.  The
store is returned unchanged, mirroring that the Python function only reads the
global dictionary. -/
def verify_otp (st : OtpStore) (email : Option String) (entered_otp : String) :
    OtpStore × Bool :=
  (st, otpGet st email == some entered_otp)

/-- Python string interpolation of a value that may be `None`: an f-string
renders `None` as the text `"None"`. -/
def pyStr (s : Option String) : String :=
  match s with
  | some t => t
  | none => "None"

/-- `get_monument_info` (lines 59-63): build the prompt and return the
generator's response verbatim.  `gen` abstracts the Gemini model call. -/
def get_monument_info (gen : String → String) (location : Option String) :
    String :=
  gen ("Tell me about the top historical monuments in " ++ pyStr location ++
    " with their significance.")

/-- The greeting appended by `greet_user` (line 78). -/
def greetingText : String :=
  "Hello! I'm your historical monument guide. Where are you traveling?"

/-- The confirmation `get_location` appends on a successful extraction
(line 87). -/
def gotItText (location : String) : String :=
  "Got it! You are interested in " ++ location ++
    ". Can I have your email for verification?"

/-- The re-prompt `get_location` appends on a failed extraction (line 89). -/
def repromptLocText : String :=
  "I couldn't detect a location. Can you mention it explicitly?"

/-- The message `request_email` appends when `send_otp` returns `True`
(line 99). -/
def otpSentText : String :=
  "OTP sent to your email. Please enter the OTP."

/-- The message `request_email` appends when `send_otp` returns `False`
(line 101). -/
def otpFailText : String :=
  "Failed to send OTP. Try again."

/-- The re-prompt `request_email` appends when the input has no `@`
(line 103). -/
def emailRepromptText : String :=
  "Please enter a valid email address."

/-- The message `verify_user_otp` appends on a successful verification
(line 111). -/
def otpOkText : String :=
  "OTP verified successfully! Fetching historical information..."

/-- The message `verify_user_otp` appends on a failed verification
(line 113). -/
def invalidOtpText : String :=
  "Invalid OTP. Try again."

/-- The message `provide_info` appends when `otp_verified` is false
(line 122). -/
def notVerifiedText : String :=
  "OTP not verified. Cannot proceed."

/-- Append one message to a session (`state.messages.append(...)`). -/
def pushMsg (s : ChatState) (role content : String) : ChatState :=
  { s with messages := s.messages ++ [{ role := role, content := content }] }

/-- `state.messages[-1]`: the last element of the list; Python raises
`IndexError` on an empty list. -/
def lastMsg (s : ChatState) : Except PyExn Message :=
  match s.messages.getLast? with
  | some m => Except.ok m
  | none => Except.error PyExn.indexError

/-- Python's substring test `"@" in user_input`, specialised to the
single-character needle actually used at line 95: it holds exactly when the
character `@` occurs in the string. -/
def hasAt (s : String) : Bool :=
  s.data.contains '@'

/-- `greet_user` (lines 77-79): unconditionally append the greeting. -/
def greet_user (s : ChatState) : ChatState :=
  pushMsg s "bot" greetingText

/-- `get_location` (lines 82-90): run the extractor on `messages[-1]` and
either record the location and ask for an email, or re-prompt. -/
def get_location (nlp : String → List SpacyEnt) (s : ChatState) :
    Except PyExn ChatState :=
  match lastMsg s with
  | Except.error e => Except.error e
  | Except.ok m =>
      match extract_location nlp m.content with
      | some location =>
          Except.ok (pushMsg { s with location := some location } "bot"
            (gotItText location))
      | none => Except.ok (pushMsg s "bot" repromptLocText)

/-- `request_email` (lines 93-104): when `messages[-1]` contains an `@`, set
`email`, call `send_otp` and report; otherwise re-prompt. -/
def request_email (transport : String → String → Except PyExn Unit)
    (otpVal : Nat) (s : ChatState) (st : OtpStore) :
    OtpStore × Except PyExn ChatState :=
  match lastMsg s with
  | Except.error e => (st, Except.error e)
  | Except.ok m =>
      if hasAt m.content then
        let s' := { s with email := some m.content }
        match send_otp transport otpVal m.content st with
        | (st', Except.error e) => (st', Except.error e)
        | (st', Except.ok true) => (st', Except.ok (pushMsg s' "bot" otpSentText))
        | (st', Except.ok false) => (st', Except.ok (pushMsg s' "bot" otpFailText))
      else (st, Except.ok (pushMsg s "bot" emailRepromptText))

/-- `verify_user_otp` (lines 107-114): compare `messages[-1]` against the
stored code for `state.email` and either set `otp_verified` or re-prompt. -/
def verify_user_otp (s : ChatState) (st : OtpStore) : Except PyExn ChatState :=
  match lastMsg s with
  | Except.error e => Except.error e
  | Except.ok m =>
      if (verify_otp st s.email m.content).2 then
        Except.ok (pushMsg { s with otp_verified := true } "bot" otpOkText)
      else Except.ok (pushMsg s "bot" invalidOtpText)

/-- `provide_info` (lines 117-123): when verified, append the generated
monument information, else append the refusal line. -/
def provide_info (gen : String → String) (s : ChatState) : ChatState :=
  if s.otp_verified then
    pushMsg s "bot" (get_monument_info gen s.location)
  else pushMsg s "bot" notVerifiedText

/-- `graph.invoke` (line 157) on the compiled workflow of lines 126-138: the
five nodes run once each, in edge order, every node seeing the state left by
the one before it.  The store is returned even on an escaping exception
(the global dictionary keeps any mutation made before the raise). -/
def graphInvoke (nlp : String → List SpacyEnt) (gen : String → String)
    (transport : String → String → Except PyExn Unit) (otpVal : Nat)
    (p : ChatState × OtpStore) : OtpStore × Except PyExn ChatState :=
  let s1 := greet_user p.1
  match get_location nlp s1 with
  | Except.error e => (p.2, Except.error e)
  | Except.ok s2 =>
      match request_email transport otpVal s2 p.2 with
      | (st', Except.error e) => (st', Except.error e)
      | (st', Except.ok s3) =>
          match verify_user_otp s3 st' with
          | Except.error e => (st', Except.error e)
          | Except.ok s4 => (st', Except.ok (provide_info gen s4))

/-- One Streamlit turn (lines 149-160): append the user's input as a user
message, invoke the graph, and keep the returned state.  When the invocation
raises, the script run dies before line 160 and the session is not replaced,
so no successor state is produced. -/
def hostStep (nlp : String → List SpacyEnt) (gen : String → String)
    (transport : String → String → Except PyExn Unit) (otpVal : Nat)
    (p : ChatState × OtpStore) (user_input : String) :
    Option (ChatState × OtpStore) :=
  match graphInvoke nlp gen transport otpVal
      (pushMsg p.1 "user" user_input, p.2) with
  | (st', Except.ok s') => some (s', st')
  | (_, Except.error _) => none

/-- Sessions reachable by the host loop: the freshly initialised session with
the empty OTP store, then any number of completed turns, each with its own
`random.randint` sample. -/
inductive Reachable (nlp : String → List SpacyEnt) (gen : String → String)
    (transport : String → String → Except PyExn Unit) :
    ChatState × OtpStore → Prop where
  | init : Reachable nlp gen transport (initialSession, [])
  | step {p p' : ChatState × OtpStore} (user_input : String) (otpVal : Nat) :
      Reachable nlp gen transport p →
      hostStep nlp gen transport otpVal p user_input = some p' →
      Reachable nlp gen transport p'

/-- Number of bot messages in a transcript. -/
def countBot (l : List Message) : Nat :=
  (l.filter (fun m => m.role == "bot")).length

/-- A concrete entity recognizer that finds nothing, for concrete runs. -/
def cNlp : String → List SpacyEnt := fun _ => []

/-- A concrete text generator, for concrete runs. -/
def cGen : String → String := fun _ => "generated info"

/-- A concrete transport that succeeds, for concrete runs. -/
def cTr : String → String → Except PyExn Unit := fun _ _ => Except.ok ()

/-- Reference form of the decimal digit list of a natural number, most
significant digit first: `str(n)` produces exactly these characters. -/
def decRepr (n : Nat) : List Char :=
  if n < 10 then [Nat.digitChar n]
  else decRepr (n / 10) ++ [Nat.digitChar (n % 10)]
decreasing_by exact Nat.div_lt_self (by omega) (by omega)

lemma digitChar_isDigit : ∀ m, m < 10 → (Nat.digitChar m).isDigit = true := by
  decide

lemma digitChar_toNat : ∀ m, m < 10 → (Nat.digitChar m).toNat - 48 = m := by
  decide

lemma toDigitsCore_eq_decRepr :
    ∀ f n ds, n < f → Nat.toDigitsCore 10 f n ds = decRepr n ++ ds := by
  intro f
  induction f with
  | zero => intro n ds h; omega
  | succ f ih =>
      intro n ds h
      rw [Nat.toDigitsCore, decRepr]
      by_cases h10 : n < 10
      · have hdiv : n / 10 = 0 := Nat.div_eq_of_lt h10
        have hmod : n % 10 = n := Nat.mod_eq_of_lt h10
        simp [hdiv, hmod, h10]
      · have hdiv : n / 10 ≠ 0 := by
          have : 10 ≤ n := by omega
          have := Nat.div_pos this (by omega)
          omega
        have hlt : n / 10 < f := by
          have : n / 10 < n := Nat.div_lt_self (by omega) (by omega)
          omega
        simp only [hdiv, if_false, if_neg h10]
        rw [ih (n / 10) (Nat.digitChar (n % 10) :: ds) hlt]
        simp

lemma repr_eq_decRepr (n : Nat) : Nat.repr n = (decRepr n).asString := by
  show (Nat.toDigits 10 n).asString = _
  rw [Nat.toDigits, toDigitsCore_eq_decRepr (n + 1) n [] (Nat.lt_succ_self n),
    List.append_nil]

lemma decRepr_length (n : Nat) : (decRepr n).length = Nat.log 10 n + 1 := by
  induction n using Nat.strong_induction_on with
  | _ n ih =>
      rw [decRepr]
      by_cases h : n < 10
      · rw [if_pos h]
        simp [Nat.log_eq_zero_iff.mpr (Or.inl h)]
      · rw [if_neg h, List.length_append,
          ih (n / 10) (Nat.div_lt_self (by omega) (by omega)),
          Nat.log_div_base]
        have : 0 < Nat.log 10 n := Nat.log_pos (by norm_num) (by omega)
        simp
        omega

lemma decRepr_digits (n : Nat) : ∀ c ∈ decRepr n, c.isDigit = true := by
  induction n using Nat.strong_induction_on with
  | _ n ih =>
      rw [decRepr]
      by_cases h : n < 10
      · rw [if_pos h]
        intro c hc
        simp at hc
        subst hc
        exact digitChar_isDigit n h
      · rw [if_neg h]
        intro c hc
        rcases List.mem_append.mp hc with hc | hc
        · exact ih (n / 10) (Nat.div_lt_self (by omega) (by omega)) c hc
        · simp at hc
          subst hc
          exact digitChar_isDigit (n % 10) (Nat.mod_lt n (by omega))

/-- Decimal value of a digit-character list, used to invert `decRepr`. -/
def valDigits (l : List Char) : Nat :=
  l.foldl (fun a c => 10 * a + (c.toNat - 48)) 0

lemma valDigits_decRepr (n : Nat) : valDigits (decRepr n) = n := by
  induction n using Nat.strong_induction_on with
  | _ n ih =>
      rw [decRepr]
      by_cases h : n < 10
      · rw [if_pos h]
        show 10 * 0 + ((Nat.digitChar n).toNat - 48) = n
        have := digitChar_toNat n h
        omega
      · rw [if_neg h]
        show List.foldl _ 0 _ = n
        rw [List.foldl_append]
        have hv := ih (n / 10) (Nat.div_lt_self (by omega) (by omega))
        show 10 * valDigits (decRepr (n / 10)) +
          ((Nat.digitChar (n % 10)).toNat - 48) = n
        rw [hv, digitChar_toNat (n % 10) (Nat.mod_lt n (by omega))]
        omega

lemma repr_injective {n m : Nat} (h : Nat.repr n = Nat.repr m) : n = m := by
  rw [repr_eq_decRepr, repr_eq_decRepr] at h
  have hdata : decRepr n = decRepr m := congrArg String.data h
  have := congrArg valDigits hdata
  rwa [valDigits_decRepr, valDigits_decRepr] at this

lemma repr_length_eq (n : Nat) : (Nat.repr n).length = Nat.log 10 n + 1 := by
  rw [repr_eq_decRepr]
  show (decRepr n).length = _
  exact decRepr_length n

lemma repr_data_digits (n : Nat) : ∀ c ∈ (Nat.repr n).data, c.isDigit = true := by
  rw [repr_eq_decRepr]
  exact decRepr_digits n

/-- The stored OTP codes, being decimal numerals, can never equal the fixed
re-prompt line that `verify_user_otp` actually receives as its candidate. -/
lemma repr_ne_emailReprompt (n : Nat) : Nat.repr n ≠ emailRepromptText := by
  intro h
  have hd := repr_data_digits n
  rw [h] at hd
  have hmem : ('l' : Char) ∈ emailRepromptText.data := by decide
  have := hd 'l' hmem
  simp at this

lemma lastMsg_pushMsg (s : ChatState) (r c : String) :
    lastMsg (pushMsg s r c) = Except.ok { role := r, content := c } := by
  simp [lastMsg, pushMsg, List.getLast?_concat]

lemma hasAt_repromptLocText : hasAt repromptLocText = false := by decide

lemma hasAt_emailRepromptText : hasAt emailRepromptText = false := by decide

/-- The session a non-raising graph invocation produces, in closed form.  All
reading nodes see the bot message appended one node earlier: the extractor is
applied to the greeting, the email check and the OTP comparison are applied to
the two fixed re-prompt lines. -/
def invokeOk (nlp : String → List SpacyEnt) (gen : String → String)
    (st : OtpStore) (s : ChatState) : ChatState :=
  let locRes := extract_location nlp greetingText
  let locMsgText := match locRes with
    | some l => gotItText l
    | none => repromptLocText
  let location' := match locRes with
    | some l => some l
    | none => s.location
  let v := otpGet st s.email == some emailRepromptText
  let verified' := if v then true else s.otp_verified
  let otpMsgText := if v then otpOkText else invalidOtpText
  let lastText := if verified' then get_monument_info gen location'
    else notVerifiedText
  { s with
    location := location'
    otp_verified := verified'
    messages := s.messages ++
      [{ role := "bot", content := greetingText },
       { role := "bot", content := locMsgText },
       { role := "bot", content := emailRepromptText },
       { role := "bot", content := otpMsgText },
       { role := "bot", content := lastText }] }

/-- Closed form of one graph invocation.  Because every node reads
`messages[-1]` and every node appends before the next one runs, the outcome
depends on the incoming session only through its non-message fields: the
extractor always receives the greeting, and the only way an invocation raises
is when the extracted location itself contains an `@`, which routes the
confirmation line into `send_otp` and hits the unbound global
`EMAIL_ADDRESS`. -/
lemma graphInvoke_eq (nlp : String → List SpacyEnt) (gen : String → String)
    (tr : String → String → Except PyExn Unit) (otpVal : Nat) (s : ChatState)
    (st : OtpStore) :
    graphInvoke nlp gen tr otpVal (s, st) =
      match extract_location nlp greetingText with
      | some l =>
          if hasAt (gotItText l) then
            (otpStoreInsert st (gotItText l) (Nat.repr otpVal),
              Except.error PyExn.nameError)
          else (st, Except.ok (invokeOk nlp gen st s))
      | none => (st, Except.ok (invokeOk nlp gen st s)) := by
  cases hres : extract_location nlp greetingText with
  | some l =>
      by_cases hAt : hasAt (gotItText l)
      · simp only [graphInvoke, greet_user, get_location, lastMsg_pushMsg,
          hres, request_email, hAt, if_true, send_otp, lookupGlobal,
          moduleGlobals]
        rfl
      · simp only [graphInvoke, greet_user, get_location, lastMsg_pushMsg,
          hres, request_email, hAt, if_false, Bool.false_eq_true,
          verify_user_otp, verify_otp, provide_info, invokeOk]
        by_cases hv : otpGet st s.email == some emailRepromptText
        · simp only [hv, if_true, pushMsg]
          simp [hres]
        · simp only [hv, if_false, Bool.false_eq_true, pushMsg]
          by_cases hver : s.otp_verified
          · simp [hver]
          · simp [hver]
  | none =>
      simp only [graphInvoke, greet_user, get_location, lastMsg_pushMsg, hres,
        request_email, hasAt_repromptLocText, Bool.false_eq_true, if_false,
        verify_user_otp, verify_otp, provide_info, invokeOk]
      by_cases hv : otpGet st s.email == some emailRepromptText
      · simp only [hv, if_true, pushMsg]
        simp [hres]
      · simp only [hv, if_false, Bool.false_eq_true, pushMsg]
        by_cases hver : s.otp_verified
        · simp [hver]
        · simp [hver]

/-- The explicit stage enum of the reimplementation described in spec §4.4. -/
inductive Stage where
  | greet
  | awaitLocation
  | awaitEmail
  | awaitOtp
  | provideInfo
deriving DecidableEq, Repr

/-- A session of the spec's corrected design: the same fields as `ChatState`
plus the explicit `stage` pointer. -/
structure SpecSession where
  stage : Stage
  messages : List Message
  email : Option String
  otpVerified : Bool
  location : Option String
deriving DecidableEq, Repr

/-- A freshly created spec-design session. -/
def initialSpecSession : SpecSession :=
  { stage := Stage.greet, messages := [], email := none, otpVerified := false,
    location := none }

/-- Modelled from the spec: §4.2 `send(email)` — generate the code, store it
keyed by the email (overwriting any prior code) before the transport attempt,
and convert any transport error into a boolean failure, letting no exception
escape. -/
def specSend (transport : String → String → Except PyExn Unit) (otpVal : Nat)
    (email : String) (st : OtpStore) : OtpStore × Bool :=
  let st' := otpStoreInsert st email (Nat.repr otpVal)
  match transport email ("Your OTP for verification is: " ++ Nat.repr otpVal) with
  | Except.ok _ => (st', true)
  | Except.error _ => (st', false)

/-- Modelled from the spec: §4.4's single-dispatch design — append the user
message, dispatch to exactly one handler selected by the explicit `stage`,
append exactly one bot message, and advance the stage as the table states. -/
def specStep (nlp : String → List SpacyEnt) (gen : String → String)
    (transport : String → String → Except PyExn Unit) (otpVal : Nat)
    (p : SpecSession × OtpStore) (user_input : String) :
    SpecSession × OtpStore :=
  let s : SpecSession := { p.1 with
    messages := p.1.messages ++ [{ role := "user", content := user_input }] }
  match s.stage with
  | Stage.greet =>
      ({ s with
          messages := s.messages ++ [{ role := "bot", content := greetingText }]
          stage := Stage.awaitLocation }, p.2)
  | Stage.awaitLocation =>
      match extract_location nlp user_input with
      | some l =>
          ({ s with
              location := some l
              messages := s.messages ++ [{ role := "bot", content := gotItText l }]
              stage := Stage.awaitEmail }, p.2)
      | none =>
          ({ s with
              messages := s.messages ++
                [{ role := "bot", content := repromptLocText }] }, p.2)
  | Stage.awaitEmail =>
      if hasAt user_input then
        match specSend transport otpVal user_input p.2 with
        | (st', true) =>
            ({ s with
                email := some user_input
                messages := s.messages ++ [{ role := "bot", content := otpSentText }]
                stage := Stage.awaitOtp }, st')
        | (st', false) =>
            ({ s with
                email := some user_input
                messages := s.messages ++ [{ role := "bot", content := otpFailText }]
                stage := Stage.awaitOtp }, st')
      else
        ({ s with
            messages := s.messages ++
              [{ role := "bot", content := emailRepromptText }] }, p.2)
  | Stage.awaitOtp =>
      if otpGet p.2 s.email == some user_input then
        ({ s with
            otpVerified := true
            messages := s.messages ++ [{ role := "bot", content := otpOkText }]
            stage := Stage.provideInfo }, p.2)
      else
        ({ s with
            messages := s.messages ++
              [{ role := "bot", content := invalidOtpText }] }, p.2)
  | Stage.provideInfo =>
      ({ s with
          messages := s.messages ++
            [{ role := "bot", content := get_monument_info gen s.location }] },
        p.2)

/-- C2: the spec claims `send_otp` never lets an exception escape and converts
any delivery error into a boolean `False`.  In the code the assignment
`msg["From"] = EMAIL_ADDRESS` (line 43) reads a global that is never bound
(line 17 binds `EMAIL_SENDER` instead) and sits before the `try` block, so
every call to `send_otp` raises an escaping `NameError` — evaluated here at a
concrete input and shown to hold for every input. -/
theorem C2_send_otp_raises :
    (send_otp cTr 123456 "user@example.com" []).2
        = Except.error PyExn.nameError
  ∧ ∀ (tr : String → String → Except PyExn Unit) (otpVal : Nat)
      (email : String) (st : OtpStore),
      (send_otp tr otpVal email st).2 = Except.error PyExn.nameError :=
  ⟨rfl, fun _ _ _ _ => rfl⟩

/-- C5: `send_otp` stores the freshly generated code under the given email
(line 38) before the delivery attempt, so the OTP map is mutated even though
the call then fails; the store returned by `send_otp` is exactly the input
store with the new binding, whatever the transport does. -/
theorem C5_store_mutated_before_transport :
    ∀ (tr : String → String → Except PyExn Unit) (otpVal : Nat)
      (email : String) (st : OtpStore),
      (send_otp tr otpVal email st).1
          = otpStoreInsert st email (Nat.repr otpVal)
    ∧ otpGet (send_otp tr otpVal email st).1 (some email)
          = some (Nat.repr otpVal) := by
  intro tr otpVal email st
  refine ⟨rfl, ?_⟩
  simp [send_otp, lookupGlobal, moduleGlobals, otpStoreInsert, otpGet,
    List.find?]

lemma otpGet_cons (k c : String) (st : OtpStore) (e : String) :
    otpGet ((k, c) :: st) (some e)
      = if k == e then some c else otpGet st (some e) := by
  by_cases h : k == e <;> simp [otpGet, List.find?, h]

/-- C4: `verify_otp` returns `True` exactly when a code is stored for the
email and string-equals the candidate; it returns `False` when no code is
stored; it leaves the OTP store untouched, so repeating the same check gives
the same answer (replay). -/
theorem C4_verify_otp_spec :
    ∀ (st : OtpStore) (e cand : String),
      ((verify_otp st (some e) cand).2 = true ↔ otpGet st (some e) = some cand)
    ∧ (verify_otp st (some e) cand).1 = st
    ∧ (otpGet st (some e) = none → (verify_otp st (some e) cand).2 = false)
    ∧ (verify_otp (verify_otp st (some e) cand).1 (some e) cand).2
        = (verify_otp st (some e) cand).2 := by
  intro st e cand
  refine ⟨?_, rfl, ?_, rfl⟩
  · simp [verify_otp]
  · intro h
    simp [verify_otp, h]

/-- Witness for C4 at concrete inputs: with `123456` stored for `a@b.com`
the matching candidate verifies and an empty store refuses. -/
theorem C4_witness :
    (verify_otp [("a@b.com", "123456")] (some "a@b.com") "123456").2 = true
  ∧ (verify_otp [] (some "a@b.com") "123456").2 = false :=
  ⟨(C4_verify_otp_spec [("a@b.com", "123456")] "a@b.com" "123456").1.mpr
      (by decide),
    (C4_verify_otp_spec [] "a@b.com" "123456").2.2.1 rfl⟩

/-- The store effect of a sequence of `send_otp` calls, each with its own
sampled code. -/
def sendsApply (tr : String → String → Except PyExn Unit) (st : OtpStore)
    (ops : List (String × Nat)) : OtpStore :=
  ops.foldl (fun acc op => (send_otp tr op.2 op.1 acc).1) st

/-- The code of the chronologically last send to a given email in a sequence
of send operations, if any. -/
def lastSendTo (ops : List (String × Nat)) (e : String) : Option Nat :=
  match ops with
  | [] => none
  | op :: rest =>
      match lastSendTo rest e with
      | some n => some n
      | none => if op.1 == e then some op.2 else none

lemma sendsApply_lookup (tr : String → String → Except PyExn Unit) :
    ∀ (ops : List (String × Nat)) (st : OtpStore) (e : String),
      otpGet (sendsApply tr st ops) (some e)
        = match lastSendTo ops e with
          | some n => some (Nat.repr n)
          | none => otpGet st (some e) := by
  intro ops
  induction ops with
  | nil => intro st e; rfl
  | cons op rest ih =>
      intro st e
      show otpGet (sendsApply tr ((op.1, Nat.repr op.2) :: st) rest) (some e) = _
      rw [ih]
      cases hlast : lastSendTo rest e with
      | some n => simp [lastSendTo, hlast]
      | none =>
          simp only [lastSendTo, hlast, otpGet_cons]
          by_cases h : op.1 == e <;> simp [h]

/-- C6: the OTP map always holds the code of the most recent send for each
email (last-write-wins) and, after two successive sends to the same email,
only the second code verifies. -/
theorem C6_last_write_wins :
    ∀ tr : String → String → Except PyExn Unit,
      (∀ (ops : List (String × Nat)) (st : OtpStore) (e : String),
        otpGet (sendsApply tr st ops) (some e)
          = match lastSendTo ops e with
            | some n => some (Nat.repr n)
            | none => otpGet st (some e))
    ∧ ∀ (st : OtpStore) (e : String) (n₁ n₂ : Nat), n₁ ≠ n₂ →
        (verify_otp (sendsApply tr st [(e, n₁), (e, n₂)]) (some e)
            (Nat.repr n₂)).2 = true
      ∧ (verify_otp (sendsApply tr st [(e, n₁), (e, n₂)]) (some e)
            (Nat.repr n₁)).2 = false := by
  intro tr
  refine ⟨sendsApply_lookup tr, ?_⟩
  intro st e n₁ n₂ hne
  have hget : otpGet (sendsApply tr st [(e, n₁), (e, n₂)]) (some e)
      = some (Nat.repr n₂) := by
    rw [sendsApply_lookup tr]
    simp [lastSendTo]
  constructor
  · simp [verify_otp, hget]
  · simp only [verify_otp, hget]
    have : Nat.repr n₂ ≠ Nat.repr n₁ := fun h => hne (repr_injective h).symm
    simp [this]

/-- Witness for C6 at concrete inputs: after sending `111111` then `222222`
to the same address, only `222222` verifies. -/
theorem C6_witness :
    (verify_otp (sendsApply cTr [] [("a@b.com", 111111), ("a@b.com", 222222)])
        (some "a@b.com") "222222").2 = true
  ∧ (verify_otp (sendsApply cTr [] [("a@b.com", 111111), ("a@b.com", 222222)])
        (some "a@b.com") "111111").2 = false :=
  (C6_last_write_wins cTr).2 [] "a@b.com" 111111 222222 (by decide)

/-- C8: every code generated by `send_otp` is the decimal string of the
`random.randint(100000, 999999)` sample, and for every sample in that
inclusive range the stored code is a 6-character all-digit string. -/
theorem C8_otp_code_format :
    ∀ (tr : String → String → Except PyExn Unit) (otpVal : Nat)
      (email : String) (st : OtpStore),
      100000 ≤ otpVal → otpVal ≤ 999999 →
      otpGet (send_otp tr otpVal email st).1 (some email)
          = some (Nat.repr otpVal)
    ∧ (Nat.repr otpVal).length = 6
    ∧ ∀ c ∈ (Nat.repr otpVal).data, c.isDigit = true := by
  intro tr otpVal email st h₁ h₂
  refine ⟨(C5_store_mutated_before_transport tr otpVal email st).2, ?_,
    repr_data_digits otpVal⟩
  rw [repr_length_eq]
  have hlog : Nat.log 10 otpVal = 5 :=
    Nat.log_eq_of_pow_le_of_lt_pow (by norm_num; omega) (by norm_num; omega)
  omega

lemma firstGpe_spec (l : List SpacyEnt) :
    ((((l.filter (fun e => e.label == "GPE")).map (·.text)).head? = none)
        ↔ ∀ e ∈ l, e.label ≠ "GPE")
  ∧ ∀ t : String,
      (((l.filter (fun e => e.label == "GPE")).map (·.text)).head? = some t)
        ↔ ∃ pre x post, l = pre ++ x :: post ∧ x.label = "GPE" ∧ x.text = t ∧
            ∀ e ∈ pre, e.label ≠ "GPE" := by
  induction l with
  | nil =>
      refine ⟨by simp, ?_⟩
      intro t
      constructor
      · intro h
        simp at h
      · rintro ⟨pre, x, post, heq, -⟩
        cases pre <;> simp at heq
  | cons a rest ih =>
      by_cases ha : a.label = "GPE"
      · constructor
        · simp [List.filter_cons, ha]
        · intro t
          constructor
          · intro h
            simp [List.filter_cons, ha] at h
            exact ⟨[], a, rest, rfl, ha, h, by simp⟩
          · rintro ⟨pre, x, post, heq, hx, hxt, hpre⟩
            cases pre with
            | nil =>
                simp at heq
                obtain ⟨rfl, rfl⟩ := heq
                simp [List.filter_cons, ha, hxt]
            | cons b pre' =>
                simp at heq
                obtain ⟨rfl, -⟩ := heq
                exact absurd ha (hpre a (by simp))
      · have hstep :
            ((a :: rest).filter (fun e => e.label == "GPE"))
              = rest.filter (fun e => e.label == "GPE") := by
          simp [List.filter_cons, ha]
        constructor
        · rw [hstep]
          rw [ih.1]
          constructor
          · intro h e he
            rcases List.mem_cons.mp he with rfl | he'
            · exact ha
            · exact h e he'
          · intro h e he
            exact h e (List.mem_cons_of_mem a he)
        · intro t
          rw [hstep, ih.2 t]
          constructor
          · rintro ⟨pre, x, post, heq, hx, hxt, hpre⟩
            refine ⟨a :: pre, x, post, by rw [heq]; rfl, hx, hxt, ?_⟩
            intro e he
            rcases List.mem_cons.mp he with rfl | he'
            · exact ha
            · exact hpre e he'
          · rintro ⟨pre, x, post, heq, hx, hxt, hpre⟩
            cases pre with
            | nil =>
                simp at heq
                obtain ⟨rfl, -⟩ := heq
                exact absurd hx ha
            | cons b pre' =>
                simp at heq
                obtain ⟨rfl, heq'⟩ := heq
                exact ⟨pre', x, post, heq', hx, hxt,
                  fun e he => hpre e (List.mem_cons_of_mem a he)⟩

/-- C9: `extract_location` returns the text of the first GPE-labelled entity
of the recognizer's output in document order, and `None` exactly when no
entity is GPE-labelled; the function is total and pure (its type has no
effect and no error outcome), so absence of a match is a normal result. -/
theorem C9_extract_first_gpe :
    ∀ (nlp : String → List SpacyEnt) (u : String),
      (extract_location nlp u = none ↔ ∀ e ∈ nlp u, e.label ≠ "GPE")
    ∧ ∀ t : String,
        extract_location nlp u = some t ↔
          ∃ pre x post, nlp u = pre ++ x :: post ∧ x.label = "GPE" ∧
            x.text = t ∧ ∀ e ∈ pre, e.label ≠ "GPE" := by
  intro nlp u
  exact firstGpe_spec (nlp u)

/-- Witness for C9 at a concrete recognizer output: with entities
`[ORG "Acme", GPE "Paris", GPE "Rome"]` the extractor returns `"Paris"`,
the first GPE span in document order. -/
theorem C9_witness :
    extract_location
      (fun _ => [{ text := "Acme", label := "ORG" },
                 { text := "Paris", label := "GPE" },
                 { text := "Rome", label := "GPE" }]) "trip" = some "Paris" :=
  ((C9_extract_first_gpe
      (fun _ => [{ text := "Acme", label := "ORG" },
                 { text := "Paris", label := "GPE" },
                 { text := "Rome", label := "GPE" }]) "trip").2 "Paris").mpr
    ⟨[{ text := "Acme", label := "ORG" }], { text := "Paris", label := "GPE" },
      [{ text := "Rome", label := "GPE" }], rfl, rfl, rfl, by decide⟩

/-- Number of user messages in a transcript. -/
def countUser (l : List Message) : Nat :=
  (l.filter (fun m => m.role == "user")).length

lemma graphInvoke_ok_eq (nlp : String → List SpacyEnt) (gen : String → String)
    (tr : String → String → Except PyExn Unit) (otpVal : Nat) (s : ChatState)
    (st st' : OtpStore) (s' : ChatState)
    (h : graphInvoke nlp gen tr otpVal (s, st) = (st', Except.ok s')) :
    st' = st ∧ s' = invokeOk nlp gen st s := by
  rw [graphInvoke_eq] at h
  cases hres : extract_location nlp greetingText with
  | some l =>
      simp only [hres] at h
      by_cases hAt : hasAt (gotItText l)
      · rw [if_pos hAt] at h
        have h2 := congrArg Prod.snd h
        simp at h2
      · rw [if_neg hAt] at h
        have h1 := congrArg Prod.fst h
        have h2 := congrArg Prod.snd h
        simp at h1 h2
        exact ⟨h1.symm, h2.symm⟩
  | none =>
      simp only [hres] at h
      have h1 := congrArg Prod.fst h
      have h2 := congrArg Prod.snd h
      simp at h1 h2
      exact ⟨h1.symm, h2.symm⟩

lemma invokeOk_messages_shape (nlp : String → List SpacyEnt)
    (gen : String → String) (st : OtpStore) (s : ChatState) (u : String) :
      (invokeOk nlp gen st (pushMsg s "user" u)).messages.take
          s.messages.length = s.messages
    ∧ (invokeOk nlp gen st (pushMsg s "user" u)).messages.length
          = s.messages.length + 6
    ∧ countBot (invokeOk nlp gen st (pushMsg s "user" u)).messages
          = countBot s.messages + 5
    ∧ countUser (invokeOk nlp gen st (pushMsg s "user" u)).messages
          = countUser s.messages + 1 := by
  simp only [invokeOk, pushMsg, countBot, countUser]
  refine ⟨?_, by simp, ?_, ?_⟩
  · rw [List.append_assoc]
    exact List.take_left' rfl
  · simp [List.filter_append, List.filter]
  · simp [List.filter_append, List.filter]

lemma hostStep_ok_shape (nlp : String → List SpacyEnt) (gen : String → String)
    (tr : String → String → Except PyExn Unit) (otpVal : Nat) (s : ChatState)
    (st : OtpStore) (u : String) (r : ChatState × OtpStore)
    (h : hostStep nlp gen tr otpVal (s, st) u = some r) :
      r.1.messages.take s.messages.length = s.messages
    ∧ r.1.messages.length = s.messages.length + 6
    ∧ countBot r.1.messages = countBot s.messages + 5
    ∧ countUser r.1.messages = countUser s.messages + 1 := by
  obtain ⟨s', st'⟩ := r
  unfold hostStep at h
  cases hg : graphInvoke nlp gen tr otpVal (pushMsg s "user" u, st) with
  | mk stg rg =>
      rw [hg] at h
      cases rg with
      | error e => simp at h
      | ok sg =>
          simp at h
          obtain ⟨hs, hst⟩ := h
          obtain ⟨-, hsg⟩ :=
            graphInvoke_ok_eq nlp gen tr otpVal (pushMsg s "user" u) st stg sg hg
          have : s' = invokeOk nlp gen st (pushMsg s "user" u) := by
            rw [← hs, hsg]
          rw [this]
          exact invokeOk_messages_shape nlp gen st s u

/-- C1 fails on the code: in a concrete first turn (empty session, input
`"hi"`, recognizer finding nothing) the single processed user message is
answered by five appended bot messages, not exactly one — every node of the
linear workflow appends its own reply on every invocation. -/
theorem C1_counterexample :
    Option.map (fun p => countBot p.1.messages)
        (hostStep cNlp cGen cTr 123456 (initialSession, []) "hi") = some 5
  ∧ Option.map (fun p => countBot p.1.messages)
        (hostStep cNlp cGen cTr 123456 (initialSession, []) "hi") ≠ some 1 := by
  decide

/-- C1 amended: every turn the graph completes appends the one user message
and exactly five bot messages (one per node), leaving the previous transcript
as a prefix; so after `k` completed turns the transcript holds `k` user
messages and `5k` bot messages. -/
theorem C1_amended :
    ∀ (nlp : String → List SpacyEnt) (gen : String → String)
      (tr : String → String → Except PyExn Unit) (otpVal : Nat)
      (s : ChatState) (st : OtpStore) (u : String) (r : ChatState × OtpStore),
      hostStep nlp gen tr otpVal (s, st) u = some r →
        r.1.messages.take s.messages.length = s.messages
      ∧ r.1.messages.length = s.messages.length + 6
      ∧ countBot r.1.messages = countBot s.messages + 5
      ∧ countUser r.1.messages = countUser s.messages + 1 :=
  fun nlp gen tr otpVal s st u r h =>
    hostStep_ok_shape nlp gen tr otpVal s st u r h

/-- Witness for C1 amended at a concrete completed turn. -/
theorem C1_witness :
    (invokeOk cNlp cGen [] (pushMsg initialSession "user" "hi")).messages.take
        initialSession.messages.length = initialSession.messages
  ∧ (invokeOk cNlp cGen [] (pushMsg initialSession "user" "hi")).messages.length
        = initialSession.messages.length + 6
  ∧ countBot (invokeOk cNlp cGen [] (pushMsg initialSession "user" "hi")).messages
        = countBot initialSession.messages + 5
  ∧ countUser (invokeOk cNlp cGen [] (pushMsg initialSession "user" "hi")).messages
        = countUser initialSession.messages + 1 :=
  C1_amended cNlp cGen cTr 123456 initialSession [] "hi"
    (invokeOk cNlp cGen [] (pushMsg initialSession "user" "hi"), [])
    (by decide)

lemma specStep_messages_len (nlp : String → List SpacyEnt)
    (gen : String → String) (tr : String → String → Except PyExn Unit)
    (otpVal : Nat) (p : SpecSession × OtpStore) (u : String) :
    (specStep nlp gen tr otpVal p u).1.messages.length
      = p.1.messages.length + 2 := by
  obtain ⟨sp, stp⟩ := p
  unfold specStep
  cases hstage : sp.stage with
  | greet => simp [hstage]
  | awaitLocation =>
      simp only [hstage]
      cases extract_location nlp u <;> simp
  | awaitEmail =>
      simp only [hstage]
      by_cases hAt : hasAt u
      · rw [if_pos hAt]
        cases hsend : specSend tr otpVal u stp with
        | mk st' b => cases b <;> simp
      · rw [if_neg hAt]
        simp
  | awaitOtp =>
      simp only [hstage]
      by_cases hv : otpGet stp sp.email = some u
      · simp [hv]
      · simp [hv]
  | provideInfo => simp [hstage]

/-- C3 fails on the code: on a concrete first turn the single-dispatch design
of the spec produces the two-message transcript `[user, greeting]` while the
original re-run-all-nodes workflow produces a six-message transcript, so the
observable transcripts are not identical. -/
theorem C3_counterexample :
    Option.map (fun r => r.1.messages)
        (hostStep cNlp cGen cTr 123456 (initialSession, []) "hi")
      ≠ some (specStep cNlp cGen cTr 123456 (initialSpecSession, []) "hi").1.messages := by
  decide

/-- C3 amended: the single-dispatch design is not transcript-equivalent to the
original — starting from sessions with the same transcript, a completed turn
of the original appends six messages (the user message plus five bot replies,
one per node) while the spec's stage dispatch appends two (the user message
plus exactly one bot reply), so the resulting transcripts always differ. -/
theorem C3_amended :
    ∀ (nlp : String → List SpacyEnt) (gen : String → String)
      (tr : String → String → Except PyExn Unit) (otpVal : Nat)
      (s : ChatState) (st : OtpStore) (sp : SpecSession) (stp : OtpStore)
      (u : String) (r : ChatState × OtpStore),
      hostStep nlp gen tr otpVal (s, st) u = some r →
      sp.messages = s.messages →
      (specStep nlp gen tr otpVal (sp, stp) u).1.messages ≠ r.1.messages := by
  intro nlp gen tr otpVal s st sp stp u r h hm hEq
  have h6 := (hostStep_ok_shape nlp gen tr otpVal s st u r h).2.1
  have h2 := specStep_messages_len nlp gen tr otpVal (sp, stp) u
  rw [hEq, h6] at h2
  simp only [hm] at h2
  omega

/-- Witness for C3 amended at a concrete completed turn. -/
theorem C3_witness :
    (specStep cNlp cGen cTr 123456 (initialSpecSession, []) "x").1.messages
      ≠ (invokeOk cNlp cGen [] (pushMsg initialSession "user" "x")).messages :=
  C3_amended cNlp cGen cTr 123456 initialSession [] initialSpecSession [] "x"
    (invokeOk cNlp cGen [] (pushMsg initialSession "user" "x"), [])
    (by decide) rfl

/-- The part of a session visible past a fixed transcript prefix: the dropped
message list together with the non-message fields. -/
def observeFrom (k : Nat) (s : ChatState) :
    List Message × Option String × Bool × Option String :=
  (s.messages.drop k, s.email, s.otp_verified, s.location)

/-- C10 fails in its last clause: the successor of the first handler does not
observe the user's text — at a concrete first turn, when `get_location` runs,
`messages[-1]` is the greeting that `greet_user` just appended, not the user's
utterance `"Paris"`. -/
theorem C10_counterexample :
    lastMsg (greet_user (pushMsg initialSession "user" "Paris"))
        = Except.ok { role := "bot", content := greetingText }
  ∧ greetingText ≠ "Paris" :=
  ⟨rfl, by decide⟩

lemma invokeOk_observe_eq (nlp : String → List SpacyEnt)
    (gen : String → String) (st : OtpStore) (s : ChatState) (u v : String) :
    observeFrom (s.messages.length + 1)
        (invokeOk nlp gen st (pushMsg s "user" u))
      = observeFrom (s.messages.length + 1)
        (invokeOk nlp gen st (pushMsg s "user" v)) := by
  simp only [observeFrom, invokeOk, pushMsg]
  rw [List.drop_left' (by simp), List.drop_left' (by simp)]

/-- C10 amended: every handler appends its reply before the next handler
runs, so only the first handler (`greet_user`) executes with the user's
utterance as `messages[-1]`; its successor already reads the greeting, and in
fact the whole invocation result — the final store, the error outcome, the
appended bot messages and the non-message fields — is identical for any two
user utterances, so no handler after the first observes the user's text. -/
theorem C10_amended :
    ∀ (nlp : String → List SpacyEnt) (gen : String → String)
      (tr : String → String → Except PyExn Unit) (otpVal : Nat)
      (s : ChatState) (st : OtpStore) (u v : String),
      lastMsg (pushMsg s "user" u) = Except.ok { role := "user", content := u }
    ∧ lastMsg (greet_user (pushMsg s "user" u))
        = Except.ok { role := "bot", content := greetingText }
    ∧ (graphInvoke nlp gen tr otpVal (pushMsg s "user" u, st)).1
        = (graphInvoke nlp gen tr otpVal (pushMsg s "user" v, st)).1
    ∧ Except.map (observeFrom (s.messages.length + 1))
          (graphInvoke nlp gen tr otpVal (pushMsg s "user" u, st)).2
        = Except.map (observeFrom (s.messages.length + 1))
          (graphInvoke nlp gen tr otpVal (pushMsg s "user" v, st)).2 := by
  intro nlp gen tr otpVal s st u v
  refine ⟨lastMsg_pushMsg s "user" u,
    lastMsg_pushMsg (pushMsg s "user" u) "bot" greetingText, ?_, ?_⟩
  · rw [graphInvoke_eq, graphInvoke_eq]
    cases hres : extract_location nlp greetingText with
    | some l => by_cases hAt : hasAt (gotItText l) <;> simp [hAt]
    | none => rfl
  · rw [graphInvoke_eq, graphInvoke_eq]
    cases hres : extract_location nlp greetingText with
    | some l =>
        by_cases hAt : hasAt (gotItText l)
        · simp [hAt]
        · simp only [hAt, if_false, Bool.false_eq_true, Except.map]
          rw [invokeOk_observe_eq]
    | none =>
        simp only [Except.map]
        rw [invokeOk_observe_eq]

lemma otpGet_digits (st : OtpStore)
    (hst : ∀ q ∈ st, ∃ n : Nat, q.2 = Nat.repr n) (email : Option String) :
    (otpGet st email == some emailRepromptText) = false := by
  cases email with
  | none => rfl
  | some e =>
      cases hlook : otpGet st (some e) with
      | none => rfl
      | some c =>
          obtain ⟨q, hq, hq2⟩ :
              ∃ q, List.find? (fun p => p.1 == e) st = some q ∧ q.2 = c := by
            simpa [otpGet, Option.map_eq_some'] using hlook
          obtain ⟨n, hn⟩ := hst q (List.mem_of_find?_eq_some hq)
          have hne : c ≠ emailRepromptText := by
            rw [← hq2, hn]
            exact repr_ne_emailReprompt n
          simp [hne]

lemma invokeOk_fields (nlp : String → List SpacyEnt) (gen : String → String)
    (st : OtpStore) (s : ChatState)
    (hv : (otpGet st s.email == some emailRepromptText) = false) :
      (invokeOk nlp gen st s).otp_verified = s.otp_verified
    ∧ (invokeOk nlp gen st s).email = s.email
    ∧ (invokeOk nlp gen st s).location
        = match extract_location nlp greetingText with
          | some l => some l
          | none => s.location := by
  refine ⟨?_, rfl, rfl⟩
  simp only [invokeOk, hv]
  simp

/-- The inductive invariant of the host loop: the session is never
OTP-verified, the location field is either unset or a value the extractor
actually produced, and every stored OTP code is a decimal numeral. -/
def SessionInv (nlp : String → List SpacyEnt) (p : ChatState × OtpStore) :
    Prop :=
  p.1.otp_verified = false
  ∧ (p.1.location = none
      ∨ ∃ t l, extract_location nlp t = some l ∧ p.1.location = some l)
  ∧ ∀ q ∈ p.2, ∃ n : Nat, q.2 = Nat.repr n

lemma reachable_inv {nlp : String → List SpacyEnt} {gen : String → String}
    {tr : String → String → Except PyExn Unit} {p : ChatState × OtpStore}
    (h : Reachable nlp gen tr p) : SessionInv nlp p := by
  induction h with
  | init =>
      refine ⟨rfl, Or.inl rfl, ?_⟩
      intro q hq
      cases hq
  | step u otpVal hr hstep ih =>
      rename_i p p'
      obtain ⟨s, st⟩ := p
      obtain ⟨s', st'⟩ := p'
      unfold hostStep at hstep
      cases hg : graphInvoke nlp gen tr otpVal (pushMsg s "user" u, st) with
      | mk stg rg =>
          rw [hg] at hstep
          cases rg with
          | error e => simp at hstep
          | ok sg =>
              simp at hstep
              obtain ⟨hs, hst⟩ := hstep
              obtain ⟨hstg, hsg⟩ :=
                graphInvoke_ok_eq nlp gen tr otpVal (pushMsg s "user" u) st
                  stg sg hg
              have hmail : (pushMsg s "user" u).email = s.email := rfl
              have hv : (otpGet st (pushMsg s "user" u).email
                  == some emailRepromptText) = false := by
                rw [hmail]
                exact otpGet_digits st ih.2.2 s.email
              obtain ⟨hver, -, hloc⟩ :=
                invokeOk_fields nlp gen st (pushMsg s "user" u) hv
              have hst' : st' = st := by rw [← hst, hstg]
              have hs' : s' = invokeOk nlp gen st (pushMsg s "user" u) := by
                rw [← hs, hsg]
              refine ⟨?_, ?_, ?_⟩
              · rw [hs', hver]
                exact ih.1
              · rw [hs', hloc]
                cases hres : extract_location nlp greetingText with
                | some l => exact Or.inr ⟨greetingText, l, hres, rfl⟩
                | none => exact ih.2.1
              · rw [hst']
                exact ih.2.2

/-- The condition under which `provide_info` (line 118) calls the Monument
Info Provider `get_monument_info`: exactly when the session's `otp_verified`
flag is set. -/
def callsProvider (s : ChatState) : Bool :=
  s.otp_verified

/-- C7: in every reachable session, the Monument Info Provider is called only
when `otpVerified` is true, never with an unset location, and the `location`
field is only ever a value produced by a successful extraction.  (In fact no
reachable session ever sets `otpVerified`, because `verify_user_otp` compares
the stored six-digit codes against the fixed re-prompt line that
`request_email` appended, so the provider guard never fires at all.) -/
theorem C7_provider_guard :
    ∀ (nlp : String → List SpacyEnt) (gen : String → String)
      (tr : String → String → Except PyExn Unit) (s : ChatState)
      (st : OtpStore),
      Reachable nlp gen tr (s, st) →
      (callsProvider s = true → s.otp_verified = true ∧ s.location ≠ none)
    ∧ (s.location = none
        ∨ ∃ t l, extract_location nlp t = some l ∧ s.location = some l) := by
  intro nlp gen tr s st h
  have hinv := reachable_inv h
  refine ⟨?_, hinv.2.1⟩
  intro hc
  rw [callsProvider, hinv.1] at hc
  cases hc

/-- Witness for C7 at the initial session, reachable by construction. -/
theorem C7_witness :
    (callsProvider initialSession = true →
        initialSession.otp_verified = true ∧ initialSession.location ≠ none)
  ∧ (initialSession.location = none
      ∨ ∃ t l, extract_location cNlp t = some l
          ∧ initialSession.location = some l) :=
  C7_provider_guard cNlp cGen cTr initialSession [] Reachable.init

/-- Witness for C8 at the concrete sample `123456`. -/
theorem C8_witness :
    otpGet (send_otp cTr 123456 "a@b.com" []).1 (some "a@b.com")
        = some "123456"
  ∧ ("123456" : String).length = 6 := by
  have h := C8_otp_code_format cTr 123456 "a@b.com" [] (by norm_num) (by norm_num)
  refine ⟨?_, h.2.1⟩
  rw [h.1]
  rfl
